import Mathlib

/-!
Verification of the request-deduplicated image transform-and-cache pipeline
of `fastapi_resizer` (src/app/service.py, src/app/config.py, src/app/main.py).

The embedding below translates, from the source:
  * the content negotiator (`get_info_from_accept_header`, `get_mime_type`,
    `get_extension`, service.py lines 118-162);
  * the cache-path derivation (`get_save_url`, service.py lines 164-169),
    with filesystem paths modelled as component lists the way `pathlib`
    parses them;
  * the streaming origin fetch with its size ceiling (`download_image`,
    service.py lines 175-213), with the upstream response modelled as a
    status code, an optional declared content length, and a chunk list;
  * the resize geometry (`transform_image`, service.py lines 71-92,
    together with the dimension logic of PIL `Image.thumbnail`, which the
    source calls); Python float expressions over image dimensions are
    rendered in exact integer arithmetic, which coincides with the float
    computation for realistic dimension ranges (all products stay far
    below 2^53);
  * the cache-mode pipeline (`check_exists_and_valid` and
    `process_image_to_file`, service.py lines 105-116 and 215-231) as a
    state-passing function over an explicit filesystem map, instrumented
    with fetch / transform / write counters so that the deduplication and
    idempotence claims are statements about observable effect counts;
  * the LRU lock registry (`get_lock`, service.py lines 21-27, backed by
    `cachetools.LRUCache(maxsize=2000)`).

External collaborators (httpx transport, PIL decode/encode, the OS
filesystem) appear as explicit parameters of an `Env` record: the pipeline
code under verification is translated literally, while the collaborator
outcomes are universally quantified.
-/

/-! ## Byte buffers -/

/-- A byte buffer (`io.BytesIO` contents) as a list of byte values. -/
abbrev ByteBuf := List Nat

/-! ## Association-list helpers (filesystem map, lock registry) -/

/-- Lookup in an association list keyed by strings. -/
def alookup {α : Type} (k : String) : List (String × α) → Option α
  | [] => none
  | (k2, v) :: rest => if k2 = k then some v else alookup k rest

/-- Remove every binding of a key from an association list. -/
def aerase {α : Type} (k : String) : List (String × α) → List (String × α)
  | [] => []
  | (k2, v) :: rest => if k2 = k then aerase k rest else (k2, v) :: aerase k rest

/-! ## Content negotiator (service.py lines 118-162) -/

/-- The fixed `mime_ext_fmt_map` table of `get_info_from_accept_header`
(service.py lines 124-127): supported (MIME, extension, Pillow format)
triples, AVIF before WEBP. -/
def accept_table : List (String × String × String) :=
  [("image/avif", ".avif", "AVIF"), ("image/webp", ".webp", "WEBP")]

/-- Split a character list on a separator (helper; structurally recursive
rendering of Python `str.split` for a one-character separator, which is
also the semantics of `String.splitOn` for such separators). -/
def splitCharsAux (sep : Char) : List Char → List Char → List (List Char)
  | [], cur => [cur.reverse]
  | c :: cs, cur =>
    if c = sep then cur.reverse :: splitCharsAux sep cs []
    else splitCharsAux sep cs (c :: cur)

/-- Python `str.split(sep)` for a one-character separator. -/
def split_on_char (sep : Char) (s : String) : List String :=
  (splitCharsAux sep s.data []).map (fun cs => String.mk cs)

/-- Python `str.strip()`: drop whitespace from both ends. -/
def strip (s : String) : String :=
  String.mk (((s.data.dropWhile Char.isWhitespace).reverse.dropWhile Char.isWhitespace).reverse)

/-- Insert a string into a sorted list (helper for the `sorted(...)` call
at service.py line 129). -/
def insertSorted (x : String) : List String → List String
  | [] => [x]
  | y :: ys => if x ≤ y then x :: y :: ys else y :: insertSorted x ys

/-- `sorted(...)` over strings, as used at service.py line 129. -/
def sortStrings (l : List String) : List String :=
  l.foldr insertSorted []

/-- The comma-split, whitespace-stripped entries of the Accept header
(service.py line 129, before sorting). -/
def parse_accept (accept_header : String) : List String :=
  (split_on_char ',' accept_header).map strip

/-- `ImageService.get_info_from_accept_header` (service.py lines 118-135):
first table entry whose MIME appears among the sorted, stripped
comma-separated Accept entries; `none` when no supported type is accepted.
The `self._accept_info` per-request memoisation caches this pure value and
is semantically the identity. -/
def get_info_from_accept_header (accept_header : String) :
    Option (String × String × String) :=
  accept_table.find? (fun e => decide (e.1 ∈ sortStrings (parse_accept accept_header)))

/-- `ImageService.get_extension` (service.py lines 148-154): negotiated
file extension, or `none`. -/
def get_extension (accept_header : String) : Option String :=
  match get_info_from_accept_header accept_header with
  | some (_, ext, _) => some ext
  | none => none

/-! ## Path derivation (service.py lines 164-169) -/

/-- Index of the last '.' in a character list (accumulator form). -/
def lastDotIdxAux : List Char → Nat → Option Nat → Option Nat
  | [], _, best => best
  | c :: cs, i, best => lastDotIdxAux cs (i + 1) (if c = '.' then some i else best)

/-- Split a path component into `(stem, suffix)` the way `pathlib` does:
the suffix starts at the last dot, provided that dot is neither the first
nor the last character of the name; otherwise the suffix is empty. -/
def name_split (name : String) : String × String :=
  match lastDotIdxAux name.data 0 none with
  | none => (name, "")
  | some i =>
    if 0 < i ∧ i + 1 < name.data.length then
      (String.mk (name.data.take i), String.mk (name.data.drop i))
    else (name, "")

/-- Suffix of `RESIZE_DIR / img_url` (`path.suffix` at service.py line 168):
joining onto `RESIZE_DIR` keeps the final component, so this is the suffix
of the last '/'-separated component of `img_url`. -/
def path_suffix (img_url : String) : String :=
  (name_split ((split_on_char '/' img_url).getLastD "")).2

/-- The `self.get_extension() or path.suffix` expression of
`ImageService.get_save_url` (service.py line 168). -/
def save_extension (accept_header img_url : String) : String :=
  (get_extension accept_header).getD (path_suffix img_url)

/-- `ImageService.get_save_url` (service.py lines 164-169). `pathlib`
paths are modelled as their component lists (`resize_dir` is the
already-parsed component list of `RESIZE_DIR`; `img_url` is parsed by
splitting on '/'), rendered back with '/' separators:
`path = RESIZE_DIR / img_url`, then
`path.parent / (path.stem + "-w" + width + extension)`. -/
def get_save_url (resize_dir : List String) (img_url : String) (width : Nat)
    (accept_header : String) : String :=
  String.intercalate "/"
    ((resize_dir ++ split_on_char '/' img_url).dropLast ++
      [(name_split ((resize_dir ++ split_on_char '/' img_url).getLastD "")).1 ++
        "-w" ++ toString width ++ save_extension accept_header img_url])

/-- The `mimetypes.guess_type` fallback of `ImageService.get_mime_type`
(service.py line 146): the Python standard `mimetypes` table restricted to
the image extensions the route admits (main.py line 22), plus the
`image/avif` registration performed at service.py line 30. -/
def mimetypes_guess_type (img_url : String) : Option String :=
  let sfx := path_suffix img_url
  if sfx = ".png" then some "image/png"
  else if sfx = ".jpg" ∨ sfx = ".jpeg" then some "image/jpeg"
  else if sfx = ".gif" then some "image/gif"
  else if sfx = ".webp" then some "image/webp"
  else if sfx = ".avif" then some "image/avif"
  else none

/-- `ImageService.get_mime_type` (service.py lines 137-146): negotiated
MIME if the Accept header matched, else the MIME guessed from the URL. -/
def get_mime_type (accept_header img_url : String) : Option String :=
  match get_info_from_accept_header accept_header with
  | some (mime, _, _) => some mime
  | none => mimetypes_guess_type img_url

/-! ## Origin fetch with size ceiling (service.py lines 175-213) -/

/-- The upstream HTTP response as `download_image` observes it: status
code, the optional declared `Content-Length`, and the streamed body
chunks (`response.iter_bytes()`). -/
structure UpstreamResponse where
  status : Nat
  contentLength : Option Nat
  chunks : List ByteBuf

/-- Outcome of `download_image`: the result (buffer or unified error
message) together with the number of body bytes read off the wire, the
observable the "before any body bytes are read" clauses are about. -/
structure DownloadOut where
  result : Except String ByteBuf
  bytesRead : Nat

/-- Total byte count of a chunk list. -/
def sumLens (cs : List ByteBuf) : Nat :=
  cs.foldr (fun c n => c.length + n) 0

/-- Concatenation of a chunk list into one buffer. -/
def concatBufs (cs : List ByteBuf) : ByteBuf :=
  cs.foldr (fun c acc => c ++ acc) []

/-- Unified-error message for the size ceiling (service.py lines 196-199
and 205-208; the URL component of the message is omitted). -/
def oversize_msg : String := "request error: error=File too large"

/-- Unified-error message for an upstream status of 400 or more
(service.py lines 187-190; URL and code components omitted). -/
def status_error_msg : String := "request error: upstream status code"

/-- The streaming loop of `download_image` (service.py lines 200-211):
running total, abort the instant the total exceeds the maximum (the
crossing chunk has already been read off the wire but is discarded, not
appended to the buffer). -/
def stream_chunks (maxSize : Nat) : List ByteBuf → Nat → ByteBuf → Nat → DownloadOut
  | [], _, acc, br => { result := Except.ok acc, bytesRead := br }
  | c :: cs, total, acc, br =>
    if total + c.length > maxSize then
      { result := Except.error oversize_msg, bytesRead := br + c.length }
    else
      stream_chunks maxSize cs (total + c.length) (acc ++ c) (br + c.length)

/-- The `content_length and int(content_length) > self.MAX_IMAGE_SIZE`
test of service.py lines 192-195: false when no length is declared. -/
def declared_oversize (maxSize : Nat) : Option Nat → Bool
  | some cl => cl > maxSize
  | none => false

/-- `ImageService.download_image` (service.py lines 175-213). A status of
400 or more first drains the body (`response.read()`, line 186) and then
raises; otherwise a declared `Content-Length` above the maximum raises
before any body byte is read; otherwise the body is streamed under the
running-total ceiling. Every raise inside the `try` block is re-raised as
the unified `ImageException` (lines 212-213), so the error messages here
are already the unified ones. -/
def download_image (maxSize : Nat) (r : UpstreamResponse) : DownloadOut :=
  if r.status ≥ 400 then
    { result := Except.error status_error_msg, bytesRead := sumLens r.chunks }
  else if declared_oversize maxSize r.contentLength then
    { result := Except.error oversize_msg, bytesRead := 0 }
  else stream_chunks maxSize r.chunks 0 [] 0

/-! ## Resize geometry (service.py lines 71-92 and PIL `Image.thumbnail`) -/

/-- The height computed at service.py line 85:
`int(orig_height * self.width / orig_width)`. Python evaluates this with
float division and truncates; for dimension ranges (products below 2^53
with no float-rounding across an integer) this equals the integer floor
used here. -/
def compute_height (orig_width orig_height width : Nat) : Nat :=
  orig_height * width / orig_width

/-- The `round(...)` of the specification's height formula, Python
semantics (round half to even), on the rational `num / den`. This
definition follows the spec's words, for comparison with
`compute_height`, which is translated from the source. -/
def spec_round (num den : Nat) : Nat :=
  let f := num / den
  let r := num % den
  if 2 * r < den then f
  else if 2 * r > den then f + 1
  else if f % 2 = 0 then f else f + 1

/-- PIL `Image.thumbnail`'s `round_aspect` for the width branch
(`x = round_aspect(y * aspect, key=lambda n: abs(aspect - n / y))` with
`aspect = orig_width / orig_height`): floor or ceiling of
`y * orig_width / orig_height`, whichever is closer to the exact aspect
(floor on ties, as Python `min` keeps its first argument), then at
least 1. The key comparison is cross-multiplied to exact integers. -/
def round_aspect_w (orig_width orig_height y : Nat) : Nat :=
  let num := y * orig_width
  let f := num / orig_height
  let c := (num + orig_height - 1) / orig_height
  let kf := Nat.dist (orig_width * y) (f * orig_height)
  let kc := Nat.dist (orig_width * y) (c * orig_height)
  max (if kf ≤ kc then f else c) 1

/-- PIL `Image.thumbnail`'s `round_aspect` for the height branch
(`y = round_aspect(x / aspect, key=lambda n: abs(aspect - x / n))`):
`none` models the `ZeroDivisionError` Python raises when the floor
candidate is 0 (the key divides by the candidate). The key comparison
`|aspect - x/f| <= |aspect - x/c|` is cross-multiplied with the positive
denominators `orig_height * f` and `orig_height * c`. -/
def round_aspect_h (orig_width orig_height x : Nat) : Option Nat :=
  let num := x * orig_height
  let f := num / orig_width
  if f = 0 then none
  else
    let c := (num + orig_width - 1) / orig_width
    let kf := Nat.dist (orig_width * f) (x * orig_height)
    let kc := Nat.dist (orig_width * c) (x * orig_height)
    some (max (if kf * c ≤ kc * f then f else c) 1)

/-- Dimension logic of PIL `Image.thumbnail((x, y))` on an image of size
`orig_width × orig_height`: unchanged when the box already contains the
image; otherwise shrink into the box preserving aspect. `none` models the
`ZeroDivisionError` paths (`aspect = width / height` with zero height,
`x / y` with zero `y`, and the zero floor candidate in the height
branch). Float comparisons are cross-multiplied to exact integers. -/
def thumbnail_dims (orig_width orig_height x y : Nat) : Option (Nat × Nat) :=
  if orig_width ≤ x ∧ orig_height ≤ y then some (orig_width, orig_height)
  else if orig_height = 0 then none
  else if y = 0 then none
  else if x * orig_height ≥ y * orig_width then
    some (round_aspect_w orig_width orig_height y, y)
  else
    match round_aspect_h orig_width orig_height x with
    | some h => some (x, h)
    | none => none

/-- Output dimensions of `ImageService.transform_image` (service.py lines
83-92): the bounding box is `(self.width, int(orig_height * self.width /
orig_width))` and the image is shrunk into it by `img.thumbnail`. `none`
models the `ZeroDivisionError` on a zero original width. -/
def transform_dims (orig_width orig_height width : Nat) : Option (Nat × Nat) :=
  if orig_width = 0 then none
  else thumbnail_dims orig_width orig_height width (compute_height orig_width orig_height width)

/-! ## Pipeline error taxonomy (service.py and exceptions.py) -/

/-- Exceptions escaping the pipeline. `imageException` is the repository's
unified `ImageException` (raised at service.py lines 69, 187, 196, 205 and
213); `rawError` is any other exception type (PIL errors, `OSError`, ...)
propagating unwrapped. -/
inductive Exc where
  | imageException : String → Exc
  | rawError : String → Exc
deriving DecidableEq

/-- Whether a pipeline outcome failed specifically with the unified
`ImageException`. -/
def is_image_exception (r : Except Exc String) : Bool :=
  match r with
  | Except.error (Exc.imageException _) => true
  | _ => false

/-- Message of the `ImageException` raised by `validate_image_data`
(service.py line 69: `str(e)` of the PIL decode error; a fixed
representative message is used, the claims only concern the exception
kind). -/
def invalid_image_msg : String := "cannot identify image file"

/-! ## Cache-mode pipeline state (service.py lines 94-116 and 215-231) -/

/-- Pipeline state: the cache directory's filesystem as a map from file
name to content, instrumented with counters of origin fetches, transform
executions, and file writes — the effects the deduplication and
idempotence claims count. -/
structure PState where
  fs : List (String × ByteBuf)
  fetches : Nat
  transforms : Nat
  writes : Nat
deriving DecidableEq

/-- Outcomes of the external collaborators for one request, made explicit:
the raw httpx-level fetch outcome (before `download_image` wraps errors
into `ImageException` at service.py lines 212-213), PIL's `verify`
used by `validate_image_data`, the raw PIL outcome of
`transform_image` (service.py lines 71-92, no exception wrapping), and
the raw OS outcome of `save_image`'s mkdir/open/write (service.py lines
94-103, no exception wrapping). -/
structure Env where
  fetch_raw : Except String ByteBuf
  valid : ByteBuf → Bool
  transform_raw : ByteBuf → Except String ByteBuf
  save_raw : String → ByteBuf → Except String Unit

/-- `ImageService.check_exists_and_valid` (service.py lines 105-116):
missing file is a miss; an existing file that fails PIL validation (the
non-raising `validate_image_data(..., raise_exception=False)`) is deleted
(`check_filename.unlink()`) and reported as a miss; no exception is ever
raised. -/
def check_exists_and_valid (env : Env) (fname : String) (s : PState) :
    Bool × PState :=
  match alookup fname s.fs with
  | none => (false, s)
  | some content =>
    if env.valid content then (true, s)
    else (false, { s with fs := aerase fname s.fs })

/-- `ImageService.process_image_to_file` (service.py lines 215-231) with
the error wrapping present in the source: cache check; on a miss,
`download_image` (all of whose failures are re-raised as `ImageException`,
lines 212-213, and which counts as one origin fetch), then the raising
`validate_image_data` (raises `ImageException`, line 69), then
`transform_image` (unwrapped, so a raw PIL failure propagates as-is), then
`save_image` (unwrapped, so a raw `OSError` propagates as-is). -/
def process_image_to_file (env : Env) (fname : String) (s : PState) :
    Except Exc String × PState :=
  match check_exists_and_valid env fname s with
  | (true, s1) => (Except.ok fname, s1)
  | (false, s1) =>
    let s2 : PState := { s1 with fetches := s1.fetches + 1 }
    match env.fetch_raw with
    | Except.error e => (Except.error (Exc.imageException e), s2)
    | Except.ok data =>
      if env.valid data then
        let s3 : PState := { s2 with transforms := s2.transforms + 1 }
        match env.transform_raw data with
        | Except.error e => (Except.error (Exc.rawError e), s3)
        | Except.ok out =>
          match env.save_raw fname out with
          | Except.error e => (Except.error (Exc.rawError e), s3)
          | Except.ok _ =>
            (Except.ok fname,
              { s3 with fs := (fname, out) :: aerase fname s3.fs,
                        writes := s3.writes + 1 })
      else (Except.error (Exc.imageException invalid_image_msg), s2)

/-- The pipeline state after a successful cache-miss fill of `fname` with
content `out`, starting from `s`. -/
def fillState (fname : String) (out : ByteBuf) (s : PState) : PState :=
  { s with fs := (fname, out) :: aerase fname s.fs,
           fetches := s.fetches + 1,
           transforms := s.transforms + 1,
           writes := s.writes + 1 }

/-! ## Key-scoped lock registry (service.py lines 21-27) -/

/-- The module-level `_locks = LRUCache(maxsize=2000)` registry: entries
most-recently-used first, lock handles identified by creation order. -/
structure LockReg where
  entries : List (String × Nat)
  nextId : Nat
  maxsize : Nat
deriving DecidableEq

/-- `get_lock` (service.py lines 24-27) over the `cachetools.LRUCache`
semantics: a present key returns its existing handle (and the `[...]`
access refreshes its recency); an absent key creates a fresh handle,
evicting the least-recently-used entry when the registry is full. -/
def get_lock (key : String) (reg : LockReg) : Nat × LockReg :=
  match alookup key reg.entries with
  | some id =>
    (id, { reg with entries := (key, id) :: aerase key reg.entries })
  | none =>
    let entries1 :=
      if reg.entries.length ≥ reg.maxsize then reg.entries.dropLast else reg.entries
    (reg.nextId,
      { reg with entries := (key, reg.nextId) :: entries1, nextId := reg.nextId + 1 })

/-! ## Concurrent requests for one key (service.py lines 243-256)

`get_processed_image_file` runs `process_image_to_file` while holding the
per-key `asyncio.Lock` for the cache path, so the critical sections of
concurrent requests for the same key are mutually exclusive (all requests
obtain the same lock handle — `get_lock_stable` below — and `get_lock`
itself runs synchronously on the single event loop, so its check-then-set
is atomic). The cache filesystem is touched only inside these critical
sections, hence any concurrent execution of N same-key requests is
observationally one of the serial orders modelled here: each task runs
its whole critical section as one step, in an arbitrary schedule order. -/

/-- Task table of N same-key requests: `none` is a request that has not
yet entered its critical section, `some r` one that finished with
outcome `r`. -/
abbrev Tasks := List (Option (Except Exc String))

/-- One scheduling step: task `i`, if still pending, runs its critical
section (`process_image_to_file` under the key's lock) on the shared
state. Out-of-range or finished tasks leave the system unchanged. -/
def runTask (env : Env) (fname : String) (sys : Tasks × PState) (i : Nat) :
    Tasks × PState :=
  match sys.1.get? i with
  | some none =>
    match process_image_to_file env fname sys.2 with
    | (r, s2) => (sys.1.set i (some r), s2)
  | _ => sys

/-- Run a schedule (a list of task indices) over the task system. -/
def exec (env : Env) (fname : String) (sys : Tasks × PState) :
    List Nat → Tasks × PState
  | [] => sys
  | i :: rest => exec env fname (runTask env fname sys i) rest

/-! ## Configuration and the fetch timeout (config.py, service.py line 183) -/

/-- The `Settings` model of config.py (fields relevant to the claims):
`IMAGE_REQUEST_TIMEOUT` (config.py lines 16-17, default 5) and
`MAX_IMAGE_SIZE`. -/
structure Settings where
  MAX_IMAGE_SIZE : Nat
  IMAGE_REQUEST_TIMEOUT : Nat := 5

/-- The arguments passed when constructing the HTTP client that performs
the download: `timeout = none` means no `timeout=` argument is passed, so
the library default applies. -/
structure HttpxClientArgs where
  verify : Bool
  timeout : Option Nat

/-- The client construction at service.py line 183:
`httpx.Client(verify=False)` — no timeout argument. -/
def download_client_args : HttpxClientArgs :=
  { verify := false, timeout := none }

/-! ## Helper lemmas -/

theorem sumLens_cons (c : ByteBuf) (cs : List ByteBuf) :
    sumLens (c :: cs) = c.length + sumLens cs := rfl

theorem concatBufs_cons (c : ByteBuf) (cs : List ByteBuf) :
    concatBufs (c :: cs) = c ++ concatBufs cs := rfl

theorem alookup_cons_self {α : Type} (k : String) (v : α) (l : List (String × α)) :
    alookup k ((k, v) :: l) = some v := by
  simp [alookup]

theorem mem_insertSorted (a x : String) (l : List String) :
    a ∈ insertSorted x l ↔ a = x ∨ a ∈ l := by
  induction l with
  | nil => simp [insertSorted]
  | cons y ys ih =>
    by_cases hxy : x ≤ y
    · simp [insertSorted, hxy]
    · simp [insertSorted, hxy, ih]
      tauto

theorem mem_sortStrings (a : String) (l : List String) :
    a ∈ sortStrings l ↔ a ∈ l := by
  induction l with
  | nil => simp [sortStrings]
  | cons x xs ih =>
    simp only [sortStrings, List.foldr] at ih ⊢
    rw [mem_insertSorted, ih, List.mem_cons]

theorem stream_chunks_within (M : Nat) :
    ∀ (cs : List ByteBuf) (total : Nat) (acc : ByteBuf) (br : Nat),
      total + sumLens cs ≤ M →
      (stream_chunks M cs total acc br).result = Except.ok (acc ++ concatBufs cs) ∧
      (stream_chunks M cs total acc br).bytesRead = br + sumLens cs := by
  intro cs
  induction cs with
  | nil =>
    intro total acc br _
    simp [stream_chunks, sumLens, concatBufs]
  | cons c cs ih =>
    intro total acc br h
    rw [sumLens_cons] at h
    have hno : ¬ total + c.length > M := by omega
    rw [stream_chunks, if_neg hno]
    have := ih (total + c.length) (acc ++ c) (br + c.length) (by omega)
    rw [this.1, this.2, sumLens_cons, concatBufs_cons]
    constructor
    · rw [List.append_assoc]
    · omega

theorem stream_chunks_over (M : Nat) :
    ∀ (cs : List ByteBuf) (total : Nat) (acc : ByteBuf) (br : Nat),
      total ≤ M → M < total + sumLens cs →
      (stream_chunks M cs total acc br).result = Except.error oversize_msg := by
  intro cs
  induction cs with
  | nil =>
    intro total acc br hle hover
    exfalso
    have h0 : sumLens ([] : List ByteBuf) = 0 := rfl
    omega
  | cons c cs ih =>
    intro total acc br hle hover
    rw [sumLens_cons] at hover
    by_cases hc : total + c.length > M
    · rw [stream_chunks, if_pos hc]
    · rw [stream_chunks, if_neg hc]
      exact ih (total + c.length) (acc ++ c) (br + c.length) (by omega) (by omega)

/-! ## C2 — the download size ceiling -/

/-- C2 counterexample: the claim says that for EVERY fetch, a declared
`Content-Length` above the maximum fails before any body bytes are read.
`download_image` checks the upstream status first (service.py line 185)
and, for a status of 400 or more, drains the whole body with
`response.read()` (line 186) before raising — so a 404 response declaring
length 11 against a maximum of 10 has its 3-byte body read even though
its declared length exceeds the maximum. -/
theorem C2_counterexample :
    (10 : Nat) < 11 ∧
    (download_image 10 ⟨404, some 11, [[1, 2, 3]]⟩).result =
      Except.error status_error_msg ∧
    (download_image 10 ⟨404, some 11, [[1, 2, 3]]⟩).bytesRead = 3 := by
  refine ⟨by decide, rfl, rfl⟩

/-- C2 amended: for every fetch whose upstream status is below 400 — an
error status fails with the unified status error after draining the body,
regardless of size — the size ceiling behaves as claimed: a declared
`Content-Length` above the maximum fails with the unified error before
any body byte is read; a body streaming past the maximum fails the
instant the running total exceeds it, discarding the partial data (the
failure carries no buffer), and when the fetch fails nothing is written
to the cache filesystem; a body of total size at most (in particular
exactly) the maximum does not trigger the size failure and yields the
full buffer. -/
theorem C2_size_ceiling :
    (∀ (M : Nat) (r : UpstreamResponse) (cl : Nat),
      r.status < 400 → r.contentLength = some cl → M < cl →
      (download_image M r).result = Except.error oversize_msg ∧
      (download_image M r).bytesRead = 0) ∧
    (∀ (M : Nat) (r : UpstreamResponse),
      r.status < 400 → (∀ cl, r.contentLength = some cl → cl ≤ M) →
      M < sumLens r.chunks →
      (download_image M r).result = Except.error oversize_msg) ∧
    (∀ (M : Nat) (r : UpstreamResponse),
      r.status < 400 → (∀ cl, r.contentLength = some cl → cl ≤ M) →
      sumLens r.chunks ≤ M →
      (download_image M r).result = Except.ok (concatBufs r.chunks) ∧
      (download_image M r).bytesRead = sumLens r.chunks) ∧
    (∀ (env : Env) (fname : String) (s : PState) (msg : String),
      env.fetch_raw = Except.error msg → alookup fname s.fs = none →
      (process_image_to_file env fname s).1 = Except.error (Exc.imageException msg) ∧
      (process_image_to_file env fname s).2.fs = s.fs ∧
      (process_image_to_file env fname s).2.writes = s.writes) := by
  refine ⟨?_, ?_, ?_, ?_⟩
  · intro M r cl hst hcl hover
    have hd : declared_oversize M r.contentLength = true := by
      rw [hcl]
      simp [declared_oversize]
      omega
    unfold download_image
    rw [if_neg (by omega), if_pos hd]
    exact ⟨rfl, rfl⟩
  · intro M r hst hcl hover
    have hd : declared_oversize M r.contentLength = false := by
      cases h : r.contentLength with
      | none => rfl
      | some cl =>
        have := hcl cl h
        simp [declared_oversize]
        omega
    unfold download_image
    rw [if_neg (by omega), if_neg (by simp [hd])]
    exact stream_chunks_over M r.chunks 0 [] 0 (by omega) (by omega)
  · intro M r hst hcl hle
    have hd : declared_oversize M r.contentLength = false := by
      cases h : r.contentLength with
      | none => rfl
      | some cl =>
        have := hcl cl h
        simp [declared_oversize]
        omega
    unfold download_image
    rw [if_neg (by omega), if_neg (by simp [hd])]
    simpa using stream_chunks_within M r.chunks 0 [] 0 (by omega)
  · intro env fname s msg hf h0
    unfold process_image_to_file check_exists_and_valid
    rw [h0, hf]
    exact ⟨rfl, rfl, rfl⟩

/-- C2 amended witness: maximum size 10 against a success response with
declared length 11 (fails, zero bytes read), a chunked 11-byte body
(fails mid-stream), an exactly-10-byte body (succeeds in full), and a
pipeline run whose fetch failed (no file written). -/
theorem C2_size_ceiling_witness :
    ((download_image 10 ⟨200, some 11, [[1, 2, 3]]⟩).result =
        Except.error oversize_msg ∧
      (download_image 10 ⟨200, some 11, [[1, 2, 3]]⟩).bytesRead = 0) ∧
    (download_image 10 ⟨200, none, [[1, 2, 3], [4, 5, 6, 7, 8], [9, 9, 9]]⟩).result =
      Except.error oversize_msg ∧
    ((download_image 10 ⟨200, none, [[1, 2, 3], [4, 5, 6, 7, 8], [9, 9]]⟩).result =
        Except.ok (concatBufs [[1, 2, 3], [4, 5, 6, 7, 8], [9, 9]]) ∧
      (download_image 10 ⟨200, none, [[1, 2, 3], [4, 5, 6, 7, 8], [9, 9]]⟩).bytesRead =
        sumLens [[1, 2, 3], [4, 5, 6, 7, 8], [9, 9]]) ∧
    ((process_image_to_file ⟨Except.error "boom", fun _ => true, fun d => Except.ok d,
          fun _ _ => Except.ok ()⟩ "f" ⟨[], 0, 0, 0⟩).1 =
        Except.error (Exc.imageException "boom") ∧
      (process_image_to_file ⟨Except.error "boom", fun _ => true, fun d => Except.ok d,
          fun _ _ => Except.ok ()⟩ "f" ⟨[], 0, 0, 0⟩).2.fs = PState.fs ⟨[], 0, 0, 0⟩ ∧
      (process_image_to_file ⟨Except.error "boom", fun _ => true, fun d => Except.ok d,
          fun _ _ => Except.ok ()⟩ "f" ⟨[], 0, 0, 0⟩).2.writes = PState.writes ⟨[], 0, 0, 0⟩) := by
  refine ⟨?_, ?_, ?_, ?_⟩
  · exact C2_size_ceiling.1 10 ⟨200, some 11, [[1, 2, 3]]⟩ 11 (by decide) rfl (by decide)
  · exact C2_size_ceiling.2.1 10 ⟨200, none, [[1, 2, 3], [4, 5, 6, 7, 8], [9, 9, 9]]⟩
      (by decide) (fun cl h => Option.noConfusion h) (by decide)
  · exact C2_size_ceiling.2.2.1 10 ⟨200, none, [[1, 2, 3], [4, 5, 6, 7, 8], [9, 9]]⟩
      (by decide) (fun cl h => Option.noConfusion h) (by decide)
  · exact C2_size_ceiling.2.2.2 ⟨Except.error "boom", fun _ => true, fun d => Except.ok d,
      fun _ _ => Except.ok ()⟩ "f" ⟨[], 0, 0, 0⟩ "boom" rfl rfl

theorem process_hit (env : Env) (fname : String) (c : ByteBuf) (s : PState)
    (hc : alookup fname s.fs = some c) (hv : env.valid c = true) :
    process_image_to_file env fname s = (Except.ok fname, s) := by
  simp [process_image_to_file, check_exists_and_valid, hc, hv]

theorem process_miss (env : Env) (fname : String) (d out : ByteBuf) (s : PState)
    (hfetch : env.fetch_raw = Except.ok d) (hvd : env.valid d = true)
    (htr : env.transform_raw d = Except.ok out)
    (hsave : env.save_raw fname out = Except.ok ())
    (h0 : alookup fname s.fs = none) :
    process_image_to_file env fname s = (Except.ok fname, fillState fname out s) := by
  simp [process_image_to_file, check_exists_and_valid, h0, hfetch, hvd, htr, hsave,
    fillState]

theorem process_heal (env : Env) (fname : String) (d out junk : ByteBuf) (s : PState)
    (hfetch : env.fetch_raw = Except.ok d) (hvd : env.valid d = true)
    (htr : env.transform_raw d = Except.ok out)
    (hsave : env.save_raw fname out = Except.ok ())
    (hj : alookup fname s.fs = some junk) (hjv : env.valid junk = false) :
    process_image_to_file env fname s =
      (Except.ok fname, fillState fname out { s with fs := aerase fname s.fs }) := by
  simp [process_image_to_file, check_exists_and_valid, hj, hjv, hfetch, hvd, htr,
    hsave, fillState]

/-! ## C3 — idempotence of the cache-mode operation -/

/-- C3: under a healthy environment (fetch succeeds with a valid image,
the transform succeeds and its output re-validates, the write succeeds),
two sequential cache-mode calls for the same file name both return that
file name, and the second call performs no origin fetch, no transform and
no write: it leaves the whole pipeline state untouched, short-circuiting
to a cache hit on the valid file the first call guaranteed. -/
theorem C3_idempotent_cache (env : Env) (fname : String) (d out : ByteBuf)
    (s0 : PState)
    (hfetch : env.fetch_raw = Except.ok d) (hvd : env.valid d = true)
    (htr : env.transform_raw d = Except.ok out) (hvo : env.valid out = true)
    (hsave : env.save_raw fname out = Except.ok ()) :
    ∀ r1 s1 r2 s2, process_image_to_file env fname s0 = (r1, s1) →
      process_image_to_file env fname s1 = (r2, s2) →
      r1 = Except.ok fname ∧ r2 = Except.ok fname ∧ s2 = s1 ∧
      s2.fetches = s1.fetches ∧ s2.transforms = s1.transforms ∧
      s2.writes = s1.writes := by
  intro r1 s1 r2 s2 hp1 hp2
  have hafter : r1 = Except.ok fname ∧ ∃ c, alookup fname s1.fs = some c ∧ env.valid c = true := by
    rcases hjunk : alookup fname s0.fs with _ | c
    · rw [process_miss env fname d out s0 hfetch hvd htr hsave hjunk] at hp1
      injection hp1 with e1 e2
      refine ⟨e1.symm, out, ?_, hvo⟩
      rw [← e2]
      exact alookup_cons_self fname out _
    · by_cases hv : env.valid c = true
      · rw [process_hit env fname c s0 hjunk hv] at hp1
        injection hp1 with e1 e2
        refine ⟨e1.symm, c, ?_, hv⟩
        rw [← e2]
        exact hjunk
      · have hv' : env.valid c = false := by
          cases hb : env.valid c
          · rfl
          · exact absurd hb hv
        rw [process_heal env fname d out c s0 hfetch hvd htr hsave hjunk hv'] at hp1
        injection hp1 with e1 e2
        refine ⟨e1.symm, out, ?_, hvo⟩
        rw [← e2]
        exact alookup_cons_self fname out _
  obtain ⟨hr1, c, hc, hcv⟩ := hafter
  rw [process_hit env fname c s1 hc hcv] at hp2
  injection hp2 with e1 e2
  exact ⟨hr1, e1.symm, e2.symm, by rw [e2], by rw [e2], by rw [e2]⟩

/-- C3 witness: a healthy environment run twice from an empty cache. -/
theorem C3_idempotent_cache_witness :
    (process_image_to_file ⟨Except.ok [7], fun _ => true, fun b => Except.ok (0 :: b),
        fun _ _ => Except.ok ()⟩ "f" ⟨[], 0, 0, 0⟩).1 = Except.ok "f" ∧
    (process_image_to_file ⟨Except.ok [7], fun _ => true, fun b => Except.ok (0 :: b),
        fun _ _ => Except.ok ()⟩ "f"
      (process_image_to_file ⟨Except.ok [7], fun _ => true, fun b => Except.ok (0 :: b),
        fun _ _ => Except.ok ()⟩ "f" ⟨[], 0, 0, 0⟩).2).2 =
    (process_image_to_file ⟨Except.ok [7], fun _ => true, fun b => Except.ok (0 :: b),
        fun _ _ => Except.ok ()⟩ "f" ⟨[], 0, 0, 0⟩).2 := by
  have h := C3_idempotent_cache
    ⟨Except.ok [7], fun _ => true, fun b => Except.ok (0 :: b), fun _ _ => Except.ok ()⟩
    "f" [7] [0, 7] ⟨[], 0, 0, 0⟩ rfl rfl rfl rfl rfl _ _ _ _ rfl rfl
  exact ⟨h.1, h.2.2.1⟩

/-! ## C4 — corruption healing -/

/-- C4: a cache file that exists but fails image validation is detected by
`check_exists_and_valid`, silently deleted (the check returns the boolean
`false`, it raises nothing) and treated as a miss; the ensuing pipeline
run performs a fresh fetch and transform and leaves a fresh, valid
artifact at the same path, returning it to the caller. -/
theorem C4_corruption_healing (env : Env) (fname : String) (d out junk : ByteBuf)
    (s0 : PState)
    (hfetch : env.fetch_raw = Except.ok d) (hvd : env.valid d = true)
    (htr : env.transform_raw d = Except.ok out) (hvo : env.valid out = true)
    (hsave : env.save_raw fname out = Except.ok ())
    (hj : alookup fname s0.fs = some junk) (hjv : env.valid junk = false) :
    check_exists_and_valid env fname s0 = (false, { s0 with fs := aerase fname s0.fs }) ∧
    ∀ r1 s1, process_image_to_file env fname s0 = (r1, s1) →
      r1 = Except.ok fname ∧ alookup fname s1.fs = some out ∧ env.valid out = true ∧
      s1.fetches = s0.fetches + 1 ∧ s1.transforms = s0.transforms + 1 ∧
      s1.writes = s0.writes + 1 := by
  constructor
  · simp [check_exists_and_valid, hj, hjv]
  · intro r1 s1 hp
    rw [process_heal env fname d out junk s0 hfetch hvd htr hsave hj hjv] at hp
    injection hp with e1 e2
    refine ⟨e1.symm, ?_, hvo, ?_, ?_, ?_⟩
    · rw [← e2]
      exact alookup_cons_self fname out _
    · rw [← e2]
      simp [fillState]
    · rw [← e2]
      simp [fillState]
    · rw [← e2]
      simp [fillState]

/-- C4 witness: a one-byte junk file `[9]` under the validator that only
accepts buffers different from `[9]`. -/
theorem C4_corruption_healing_witness :
    (process_image_to_file ⟨Except.ok [7], fun b => decide (b ≠ [9]),
        fun b => Except.ok (0 :: b), fun _ _ => Except.ok ()⟩ "f"
      ⟨[("f", [9])], 0, 0, 0⟩).1 = Except.ok "f" ∧
    alookup "f" (process_image_to_file ⟨Except.ok [7], fun b => decide (b ≠ [9]),
        fun b => Except.ok (0 :: b), fun _ _ => Except.ok ()⟩ "f"
      ⟨[("f", [9])], 0, 0, 0⟩).2.fs = some [0, 7] := by
  have h := (C4_corruption_healing
    ⟨Except.ok [7], fun b => decide (b ≠ [9]), fun b => Except.ok (0 :: b),
      fun _ _ => Except.ok ()⟩
    "f" [7] [0, 7] [9] ⟨[("f", [9])], 0, 0, 0⟩
    rfl (by decide) rfl (by decide) rfl rfl (by decide)).2 _ _ rfl
  exact ⟨h.1, h.2.1⟩

/-! ## C5 — the unified error kind -/

/-- C5 counterexample: the claim says every core failure — including a
filesystem I/O failure on write — surfaces as the unified
`ImageException`. `save_image` (service.py lines 94-103) has no exception
handling, so a raw `OSError` from the write propagates unwrapped: here the
pipeline's outcome is the raw error, not an `ImageException`. -/
theorem C5_counterexample :
    (process_image_to_file ⟨Except.ok [7], fun _ => true, fun b => Except.ok b,
        fun _ _ => Except.error "disk full"⟩ "f" ⟨[], 0, 0, 0⟩).1 =
      Except.error (Exc.rawError "disk full") ∧
    is_image_exception (process_image_to_file ⟨Except.ok [7], fun _ => true,
        fun b => Except.ok b, fun _ _ => Except.error "disk full"⟩ "f"
      ⟨[], 0, 0, 0⟩).1 = false :=
  ⟨rfl, rfl⟩

/-- C5 amended: download failures of every kind (the whole fetch is
wrapped by `except Exception: raise ImageException(str(e))`, service.py
lines 212-213) and decode/integrity failures (`validate_image_data`
raises `ImageException`, line 69) surface as the unified exception;
transform failures and filesystem write failures propagate as their
original, unwrapped exception types, because `transform_image` and
`save_image` contain no exception handling. -/
theorem C5_error_unification :
    (∀ (env : Env) (fname : String) (s : PState) (msg : String),
      alookup fname s.fs = none → env.fetch_raw = Except.error msg →
      (process_image_to_file env fname s).1 = Except.error (Exc.imageException msg) ∧
      is_image_exception (process_image_to_file env fname s).1 = true) ∧
    (∀ (env : Env) (fname : String) (s : PState) (d : ByteBuf),
      alookup fname s.fs = none → env.fetch_raw = Except.ok d →
      env.valid d = false →
      (process_image_to_file env fname s).1 =
        Except.error (Exc.imageException invalid_image_msg)) ∧
    (∀ (env : Env) (fname : String) (s : PState) (d : ByteBuf) (msg : String),
      alookup fname s.fs = none → env.fetch_raw = Except.ok d →
      env.valid d = true → env.transform_raw d = Except.error msg →
      (process_image_to_file env fname s).1 = Except.error (Exc.rawError msg) ∧
      is_image_exception (process_image_to_file env fname s).1 = false) ∧
    (∀ (env : Env) (fname : String) (s : PState) (d out : ByteBuf) (msg : String),
      alookup fname s.fs = none → env.fetch_raw = Except.ok d →
      env.valid d = true → env.transform_raw d = Except.ok out →
      env.save_raw fname out = Except.error msg →
      (process_image_to_file env fname s).1 = Except.error (Exc.rawError msg) ∧
      is_image_exception (process_image_to_file env fname s).1 = false) := by
  refine ⟨?_, ?_, ?_, ?_⟩
  · intro env fname s msg h0 hf
    simp [process_image_to_file, check_exists_and_valid, h0, hf, is_image_exception]
  · intro env fname s d h0 hf hv
    simp [process_image_to_file, check_exists_and_valid, h0, hf, hv]
  · intro env fname s d msg h0 hf hv ht
    simp [process_image_to_file, check_exists_and_valid, h0, hf, hv, ht,
      is_image_exception]
  · intro env fname s d out msg h0 hf hv ht hs
    simp [process_image_to_file, check_exists_and_valid, h0, hf, hv, ht, hs,
      is_image_exception]

/-- C5 amended witness: the four failure points against an empty cache. -/
theorem C5_error_unification_witness :
    (process_image_to_file ⟨Except.error "conn reset", fun _ => true,
        fun b => Except.ok b, fun _ _ => Except.ok ()⟩ "f" ⟨[], 0, 0, 0⟩).1 =
      Except.error (Exc.imageException "conn reset") ∧
    (process_image_to_file ⟨Except.ok [7], fun _ => false, fun b => Except.ok b,
        fun _ _ => Except.ok ()⟩ "f" ⟨[], 0, 0, 0⟩).1 =
      Except.error (Exc.imageException invalid_image_msg) ∧
    (process_image_to_file ⟨Except.ok [7], fun _ => true,
        fun _ => Except.error "encode fail", fun _ _ => Except.ok ()⟩ "f"
      ⟨[], 0, 0, 0⟩).1 = Except.error (Exc.rawError "encode fail") ∧
    (process_image_to_file ⟨Except.ok [7], fun _ => true, fun b => Except.ok b,
        fun _ _ => Except.error "disk full"⟩ "g" ⟨[], 0, 0, 0⟩).1 =
      Except.error (Exc.rawError "disk full") :=
  ⟨(C5_error_unification.1 ⟨Except.error "conn reset", fun _ => true,
      fun b => Except.ok b, fun _ _ => Except.ok ()⟩ "f" ⟨[], 0, 0, 0⟩
      "conn reset" rfl rfl).1,
    C5_error_unification.2.1 ⟨Except.ok [7], fun _ => false, fun b => Except.ok b,
      fun _ _ => Except.ok ()⟩ "f" ⟨[], 0, 0, 0⟩ [7] rfl rfl rfl,
    (C5_error_unification.2.2.1 ⟨Except.ok [7], fun _ => true,
      fun _ => Except.error "encode fail", fun _ _ => Except.ok ()⟩ "f"
      ⟨[], 0, 0, 0⟩ [7] "encode fail" rfl rfl rfl rfl).1,
    (C5_error_unification.2.2.2 ⟨Except.ok [7], fun _ => true, fun b => Except.ok b,
      fun _ _ => Except.error "disk full"⟩ "g" ⟨[], 0, 0, 0⟩ [7] [7]
      "disk full" rfl rfl rfl rfl rfl).1⟩

theorem get_lock_stable (k : String) (reg : LockReg) :
    (get_lock k (get_lock k reg).2).1 = (get_lock k reg).1 := by
  unfold get_lock
  cases h : alookup k reg.entries with
  | some id => simp [h, alookup_cons_self]
  | none => simp [h, alookup_cons_self]

theorem runTask_inv (env : Env) (fname : String) (d out : ByteBuf) (s0 : PState)
    (hfetch : env.fetch_raw = Except.ok d) (hvd : env.valid d = true)
    (htr : env.transform_raw d = Except.ok out) (hvo : env.valid out = true)
    (hsave : env.save_raw fname out = Except.ok ())
    (h0 : alookup fname s0.fs = none) (sys : Tasks × PState) (i : Nat)
    (h : (sys.2 = s0 ∧ ∀ r ∈ sys.1, r = none) ∨
      (sys.2 = fillState fname out s0 ∧
        ∀ r ∈ sys.1, r = none ∨ r = some (Except.ok fname))) :
    ((runTask env fname sys i).2 = s0 ∧ ∀ r ∈ (runTask env fname sys i).1, r = none) ∨
      ((runTask env fname sys i).2 = fillState fname out s0 ∧
        ∀ r ∈ (runTask env fname sys i).1, r = none ∨ r = some (Except.ok fname)) := by
  unfold runTask
  cases hg : sys.1.get? i with
  | none => simpa only [hg] using h
  | some o =>
    cases o with
    | some r => simpa only [hg] using h
    | none =>
      simp only [hg]
      rcases h with ⟨hs, hall⟩ | ⟨hs, hall⟩
      · have hp : process_image_to_file env fname sys.2 =
            (Except.ok fname, fillState fname out s0) := by
          rw [hs]
          exact process_miss env fname d out s0 hfetch hvd htr hsave h0
        rw [hp]
        right
        refine ⟨rfl, ?_⟩
        intro r hr
        rcases List.mem_or_eq_of_mem_set hr with hmem | heq
        · exact Or.inl (hall r hmem)
        · exact Or.inr heq
      · have hp : process_image_to_file env fname sys.2 =
            (Except.ok fname, fillState fname out s0) := by
          rw [hs]
          exact process_hit env fname out (fillState fname out s0)
            (alookup_cons_self fname out _) hvo
        rw [hp]
        right
        refine ⟨rfl, ?_⟩
        intro r hr
        rcases List.mem_or_eq_of_mem_set hr with hmem | heq
        · exact hall r hmem
        · exact Or.inr heq

theorem exec_inv (env : Env) (fname : String) (d out : ByteBuf) (s0 : PState)
    (hfetch : env.fetch_raw = Except.ok d) (hvd : env.valid d = true)
    (htr : env.transform_raw d = Except.ok out) (hvo : env.valid out = true)
    (hsave : env.save_raw fname out = Except.ok ())
    (h0 : alookup fname s0.fs = none) :
    ∀ (sched : List Nat) (sys : Tasks × PState),
      ((sys.2 = s0 ∧ ∀ r ∈ sys.1, r = none) ∨
        (sys.2 = fillState fname out s0 ∧
          ∀ r ∈ sys.1, r = none ∨ r = some (Except.ok fname))) →
      (((exec env fname sys sched).2 = s0 ∧
          ∀ r ∈ (exec env fname sys sched).1, r = none) ∨
        ((exec env fname sys sched).2 = fillState fname out s0 ∧
          ∀ r ∈ (exec env fname sys sched).1, r = none ∨ r = some (Except.ok fname))) := by
  intro sched
  induction sched with
  | nil =>
    intro sys h
    simpa only [exec] using h
  | cons i rest ih =>
    intro sys h
    rw [exec]
    exact ih (runTask env fname sys i)
      (runTask_inv env fname d out s0 hfetch hvd htr hvo hsave h0 sys i h)

theorem exec_length (env : Env) (fname : String) :
    ∀ (sched : List Nat) (sys : Tasks × PState),
      (exec env fname sys sched).1.length = sys.1.length := by
  intro sched
  induction sched with
  | nil => intro sys; rfl
  | cons i rest ih =>
    intro sys
    rw [exec, ih]
    unfold runTask
    cases hg : sys.1.get? i with
    | none => simp only [hg]
    | some o =>
      cases o with
      | some r => simp only [hg]
      | none => simp only [hg, List.length_set]

/-! ## C1 — single-flight deduplication per cache key -/

/-- C1: all requests for one cache key obtain the same lock handle from
the registry (`get_lock` is stable on its key, last conjunct), and
because `get_processed_image_file` runs the whole check-and-fill critical
section while holding that lock, any concurrent execution of N requests
for the same uncached key is one of the serial schedules modelled by
`exec`. Under a healthy environment, every completed schedule performs
exactly one origin fetch, one transform and one write, every one of the N
calls returns the cache path, and the resulting file on disk is the valid
transform output. -/
theorem C1_single_flight (env : Env) (fname : String) (d out : ByteBuf)
    (s0 : PState) (n : Nat) (sched : List Nat)
    (hfetch : env.fetch_raw = Except.ok d) (hvd : env.valid d = true)
    (htr : env.transform_raw d = Except.ok out) (hvo : env.valid out = true)
    (hsave : env.save_raw fname out = Except.ok ())
    (h0 : alookup fname s0.fs = none) (hn : 0 < n)
    (hdone : ∀ r ∈ (exec env fname (List.replicate n none, s0) sched).1,
      r.isSome = true) :
    (∀ r ∈ (exec env fname (List.replicate n none, s0) sched).1,
      r = some (Except.ok fname)) ∧
    (exec env fname (List.replicate n none, s0) sched).2.fetches = s0.fetches + 1 ∧
    (exec env fname (List.replicate n none, s0) sched).2.transforms = s0.transforms + 1 ∧
    (exec env fname (List.replicate n none, s0) sched).2.writes = s0.writes + 1 ∧
    alookup fname (exec env fname (List.replicate n none, s0) sched).2.fs = some out ∧
    env.valid out = true ∧
    ∀ (k : String) (reg : LockReg),
      (get_lock k (get_lock k reg).2).1 = (get_lock k reg).1 := by
  have hinv := exec_inv env fname d out s0 hfetch hvd htr hvo hsave h0 sched
    (List.replicate n none, s0)
    (Or.inl ⟨rfl, fun r hr => List.eq_of_mem_replicate hr⟩)
  have hlen : (exec env fname (List.replicate n none, s0) sched).1.length = n := by
    rw [exec_length env fname sched]
    exact List.length_replicate n none
  rcases hinv with ⟨hs, hall⟩ | ⟨hs, hall⟩
  · exfalso
    obtain ⟨r, hr⟩ := List.length_pos_iff_exists_mem.mp (hlen ▸ hn)
    have h1 := hall r hr
    have h2 := hdone r hr
    rw [h1] at h2
    simp at h2
  · refine ⟨?_, ?_, ?_, ?_, ?_, hvo, get_lock_stable⟩
    · intro r hr
      rcases hall r hr with h1 | h1
      · have h2 := hdone r hr
        rw [h1] at h2
        simp at h2
      · exact h1
    · rw [hs]
      simp [fillState]
    · rw [hs]
      simp [fillState]
    · rw [hs]
      simp [fillState]
    · rw [hs]
      exact alookup_cons_self fname out _

/-- C1 witness: two tasks for file `f` under a healthy environment,
scheduled one after the other from an empty cache. -/
theorem C1_single_flight_witness :
    (∀ r ∈ (exec ⟨Except.ok [7], fun _ => true, fun b => Except.ok (0 :: b),
        fun _ _ => Except.ok ()⟩ "f" (List.replicate 2 none, ⟨[], 0, 0, 0⟩)
        [0, 1]).1, r = some (Except.ok "f")) ∧
    (exec ⟨Except.ok [7], fun _ => true, fun b => Except.ok (0 :: b),
        fun _ _ => Except.ok ()⟩ "f" (List.replicate 2 none, ⟨[], 0, 0, 0⟩)
      [0, 1]).2.fetches = 0 + 1 ∧
    (exec ⟨Except.ok [7], fun _ => true, fun b => Except.ok (0 :: b),
        fun _ _ => Except.ok ()⟩ "f" (List.replicate 2 none, ⟨[], 0, 0, 0⟩)
      [0, 1]).2.transforms = 0 + 1 := by
  have h := C1_single_flight ⟨Except.ok [7], fun _ => true, fun b => Except.ok (0 :: b),
      fun _ _ => Except.ok ()⟩ "f" [7] [0, 7] ⟨[], 0, 0, 0⟩ 2 [0, 1]
      rfl rfl rfl rfl rfl rfl (by decide) (by decide)
  exact ⟨h.1, h.2.1, h.2.2.1⟩

/-! ## C9 — the fetch timeout setting -/

/-- C9: the claim says the HTTP client performing the download is
configured with the `IMAGE_REQUEST_TIMEOUT` setting. The client
construction at service.py line 183 is `httpx.Client(verify=False)`: no
timeout argument at all, so no configured value — whatever
`IMAGE_REQUEST_TIMEOUT` is set to — ever reaches the client; the library
default governs instead. The setting declared at config.py lines 16-17 is
never read anywhere in the repository. -/
theorem C9_timeout_never_configured :
    download_client_args.timeout = none ∧
    ∀ s : Settings, download_client_args.timeout ≠ some s.IMAGE_REQUEST_TIMEOUT :=
  ⟨rfl, fun _ h => Option.noConfusion h⟩

/-! ## C10 — the transform never enlarges -/

/-- C10: when the source width is at most the requested width, the
bounding box `(width, int(orig_height * width / orig_width))` already
contains the image, so PIL `thumbnail` returns it unchanged: the output
has the original dimensions — which can be strictly smaller than the
requested width, as the concrete 300×150 source at requested width 400
shows. -/
theorem C10_never_upscales (ow oh w : Nat) (h1 : 0 < ow) (_h2 : 0 < oh)
    (hle : ow ≤ w) :
    transform_dims ow oh w = some (ow, oh) ∧
    transform_dims 300 150 400 = some (300, 150) ∧ (300 : Nat) < 400 := by
  refine ⟨?_, by decide, by decide⟩
  have how : ow ≠ 0 := Nat.pos_iff_ne_zero.mp h1
  have hh : oh ≤ compute_height ow oh w := by
    unfold compute_height
    rw [Nat.le_div_iff_mul_le h1]
    exact Nat.mul_le_mul_left oh hle
  unfold transform_dims thumbnail_dims
  rw [if_neg how, if_pos ⟨hle, hh⟩]

/-- C10 witness: a 250×100 source at requested width 400 keeps its
dimensions. -/
theorem C10_never_upscales_witness :
    transform_dims 250 100 400 = some (250, 100) :=
  (C10_never_upscales 250 100 400 (by decide) (by decide) (by decide)).1

/-! ## C6 — the height formula -/

/-- C6 counterexample: the claim says the transform computes
`target_height = round(target_width * original_height / original_width)`.
service.py line 85 computes `int(...)`, which truncates. For a 1500×1000
source at requested width 250 the exact ratio is 500/3 = 166.66…, so the
claimed rounding gives 167, while the code computes 166 — and the actual
output of the transform is 249×166, with neither the claimed height nor
even the requested width. -/
theorem C6_counterexample :
    compute_height 1500 1000 250 = 166 ∧ spec_round (250 * 1000) 1500 = 167 ∧
    compute_height 1500 1000 250 ≠ spec_round (250 * 1000) 1500 ∧
    transform_dims 1500 1000 250 = some (249, 166) := by
  refine ⟨by decide, by decide, by decide, by decide⟩

/-- C6 amended: the transform computes the bounding-box height as
`int(target_width * original_height / original_width)` — the integer
truncation (floor, characterized below), not the rounding — and hands it
to PIL `thumbnail`; for a 1000×500 source at requested width 200 the
output dimensions are exactly 200×100. -/
theorem C6_truncated_height (ow oh w : Nat) (h1 : 0 < ow) :
    ow * compute_height ow oh w ≤ oh * w ∧
    oh * w < ow * compute_height ow oh w + ow ∧
    transform_dims 1000 500 200 = some (200, 100) := by
  have hdm := Nat.div_add_mod (oh * w) ow
  have hlt := Nat.mod_lt (oh * w) h1
  unfold compute_height
  refine ⟨by omega, by omega, by decide⟩

/-- C6 witness: the floor characterization at the 1000×500, width-200
instance (where the computed box height is 100). -/
theorem C6_truncated_height_witness :
    1000 * compute_height 1000 500 200 ≤ 500 * 200 ∧
    500 * 200 < 1000 * compute_height 1000 500 200 + 1000 ∧
    transform_dims 1000 500 200 = some (200, 100) :=
  C6_truncated_height 1000 500 200 (by decide)

/-! ## C7 — the cache artifact path -/

/-- C7 counterexample: the claim says the artifact path equals
`<cache_dir>/<original path>-w<width><extension>`. `get_save_url` builds
the name from `path.stem` (service.py line 169), which strips the original
path's own suffix: for cache dir `/cache`, original path `img/cat.png`,
width 200 and negotiated extension `.webp` the code produces
`/cache/img/cat-w200.webp`, not the claimed `/cache/img/cat.png-w200.webp`. -/
theorem C7_counterexample :
    get_save_url ["/cache"] "img/cat.png" 200 "image/webp" =
      "/cache/img/cat-w200.webp" ∧
    ("/cache/img/cat-w200.webp" : String) ≠ "/cache/img/cat.png-w200.webp" := by
  refine ⟨by decide, by decide⟩

/-- C7 amended: the artifact path equals
`<cache_dir>/<original path with its final suffix removed>-w<width><extension>`,
where the extension is the negotiated one if negotiation produced one,
else the original path's own suffix. -/
theorem C7_save_path (rd dirParts : List String) (img name stem sfx : String)
    (w : Nat) (hdr : String)
    (hsplit : split_on_char '/' img = dirParts ++ [name])
    (hname : name_split name = (stem, sfx)) :
    get_save_url rd img w hdr =
      String.intercalate "/"
        (rd ++ dirParts ++ [stem ++ "-w" ++ toString w ++ (get_extension hdr).getD sfx]) := by
  unfold get_save_url save_extension path_suffix
  rw [hsplit]
  rw [List.getLastD_concat, hname]
  rw [show rd ++ (dirParts ++ [name]) = (rd ++ dirParts) ++ [name] from
    (List.append_assoc rd dirParts [name]).symm]
  rw [List.getLastD_concat, List.dropLast_concat, hname]

/-- C7 amended witness: cache dir `/c`, original path `a/b.png`, width
200, no negotiated extension. -/
theorem C7_save_path_witness :
    get_save_url ["/c"] "a/b.png" 200 "" =
      String.intercalate "/" (["/c"] ++ ["a"] ++ ["b" ++ "-w" ++ toString 200 ++ (get_extension "").getD ".png"]) :=
  C7_save_path ["/c"] ["a"] "a/b.png" "b.png" "b" ".png" 200 "" (by decide) (by decide)

/-! ## C8 — content negotiation to WEBP -/

/-- C8: an Accept header containing the entry `image/webp` (any position)
and not `image/avif`, with a source path ending in `.png`, resolves the
output MIME to `image/webp` and the cache-file extension to `.webp`, not
`.png`: the AVIF table row does not match, the WEBP row does, and the
negotiated extension overrides the URL suffix in `get_save_url`'s
`extension` expression. -/
theorem C8_webp_negotiation (hdr img : String)
    (h1 : "image/webp" ∈ parse_accept hdr)
    (h2 : "image/avif" ∉ parse_accept hdr)
    (_h3 : path_suffix img = ".png") :
    get_mime_type hdr img = some "image/webp" ∧
    get_extension hdr = some ".webp" ∧
    save_extension hdr img = ".webp" ∧ save_extension hdr img ≠ ".png" := by
  have e1 : decide ("image/avif" ∈ sortStrings (parse_accept hdr)) = false :=
    decide_eq_false (fun hm => h2 ((mem_sortStrings _ _).mp hm))
  have e2 : decide ("image/webp" ∈ sortStrings (parse_accept hdr)) = true :=
    decide_eq_true ((mem_sortStrings _ _).mpr h1)
  have hinfo : get_info_from_accept_header hdr = some ("image/webp", ".webp", "WEBP") := by
    unfold get_info_from_accept_header accept_table
    rw [List.find?_cons]
    simp only [e1]
    rw [List.find?_cons]
    simp only [e2]
  refine ⟨?_, ?_, ?_, ?_⟩
  · unfold get_mime_type
    rw [hinfo]
  · unfold get_extension
    rw [hinfo]
  · unfold save_extension get_extension
    rw [hinfo]
    rfl
  · unfold save_extension get_extension
    rw [hinfo]
    show (".webp" : String) ≠ ".png"
    decide

/-- C8 witness: Accept header `text/html, image/webp` with source path
`img/cat.png`. -/
theorem C8_webp_negotiation_witness :
    get_mime_type "text/html, image/webp" "img/cat.png" = some "image/webp" ∧
    get_extension "text/html, image/webp" = some ".webp" ∧
    save_extension "text/html, image/webp" "img/cat.png" = ".webp" ∧
    save_extension "text/html, image/webp" "img/cat.png" ≠ ".png" :=
  C8_webp_negotiation "text/html, image/webp" "img/cat.png"
    (by decide) (by decide) (by decide)
